import Mathlib

/-!
Verification of the airspace-ingestion pipeline (src/ingestion.py).

The pipeline fetches aircraft telemetry, METAR weather and simulated NOTAMs,
and upserts them into a Neo4j property graph via parameterized MERGE/SET
queries.  We embed the data model, the adapters and the Cypher upsert
semantics as executable Lean definitions and prove the specified properties.
-/

namespace AirTraffic

/-- A JSON-like scalar value as carried by the external feeds (null, string
or number).  Numbers are modelled as rationals; the pipeline never computes
with them, it only passes them through. -/
inductive JVal where
  | vnull : JVal
  | vstr : String → JVal
  | vnum : ℚ → JVal
deriving DecidableEq, Repr

/-- Python truthiness of a scalar: `None`, the empty string and zero are
falsy (`if item[1]` in src/ingestion.py line 23). -/
def JVal.truthy : JVal → Bool
  | .vnull => false
  | .vstr s => decide (s ≠ "")
  | .vnum q => decide (q ≠ 0)

/-- One normalized aircraft record as produced by the telemetry adapter
(`get_opensky_telemetry`, src/ingestion.py lines 21-30).  `callsign` is a
string after normalization; the remaining fields are passed through. -/
structure AircraftRec where
  icao24 : JVal
  callsign : String
  country : JVal
  longitude : JVal
  latitude : JVal
  velocity : JVal
  heading : JVal
  altitude : JVal
deriving DecidableEq, Repr

/-- Python `str.strip()`: removes leading and trailing whitespace, modelled
directly over the character sequence. -/
def pyStrip (s : String) : String :=
  ⟨((s.data.dropWhile Char.isWhitespace).reverse.dropWhile Char.isWhitespace).reverse⟩

/-- `item[1].strip() if item[1] else "N/A"` (src/ingestion.py line 23).
A falsy value yields `"N/A"`; a truthy string is stripped; calling
`.strip()` on a truthy non-string raises `AttributeError`, modelled as
`none`. -/
def stripCallsign (v : JVal) : Option String :=
  if v.truthy then
    match v with
    | .vstr s => some (pyStrip s)
    | _ => none
  else some "N/A"

/-- Maps one positional state vector to a normalized record by fixed index
(indices 0, 1, 2, 5, 6, 9, 10, 13; src/ingestion.py lines 21-30).  An index
beyond the vector's length raises `IndexError`, modelled as `none`. -/
def mapStateVector (item : List JVal) : Option AircraftRec := do
  let i0 ← item[0]?
  let i1 ← item[1]?
  let cs ← stripCallsign i1
  let i2 ← item[2]?
  let i5 ← item[5]?
  let i6 ← item[6]?
  let i9 ← item[9]?
  let i10 ← item[10]?
  let i13 ← item[13]?
  some { icao24 := i0, callsign := cs, country := i2, longitude := i5,
         latitude := i6, velocity := i9, heading := i10, altitude := i13 }

/-- Maps the retained state vectors one after the other, as the `for` loop in
src/ingestion.py lines 20-30 does; an exception on any item aborts the whole
loop, so one failure poisons the whole batch. -/
def mapStates : List (List JVal) → Option (List AircraftRec)
  | [] => some []
  | item :: rest =>
    match mapStateVector item, mapStates rest with
    | some r, some rs => some (r :: rs)
    | _, _ => none

/-- The outcome of the HTTP call made by the telemetry adapter: either a
response with a status code and an optional `states` array (absent key
defaults to `[]`, src/ingestion.py line 18), or a transport-level
exception. -/
inductive TelemetryResponse where
  | response (status : Nat) (states : Option (List (List JVal)))
  | transportError
deriving DecidableEq, Repr

/-- `get_opensky_telemetry` (src/ingestion.py lines 13-37), as a function of
the HTTP outcome.  The cap defaults to 5.  On HTTP 200 it maps the first
`limit` state vectors by fixed index; any exception during the mapping loop
is caught by the surrounding `except` and yields `[]`, as does a non-200
status or a transport error. -/
def get_opensky_telemetry (resp : TelemetryResponse) (limit : Nat := 5) :
    List AircraftRec :=
  match resp with
  | .response status states =>
    if status = 200 then
      match mapStates ((states.getD []).take limit) with
      | some recs => recs
      | none => []
    else []
  | .transportError => []

/-- A raw METAR record: a loosely-typed JSON object whose fields are read
defensively with `dict.get` fallbacks (src/ingestion.py lines 157-159). -/
structure WeatherRec where
  station_id : Option JVal
  raw_text : Option JVal
  observation_time : Option JVal
deriving DecidableEq, Repr

/-- A NOTAM record as produced by `generate_simulated_notams`
(src/ingestion.py lines 60-75).  Timestamps are instants in seconds; the
source serializes these instants with `isoformat()` before storing them. -/
structure NotamRec where
  id : String
  message : String
  sector_id : String
  effective_from : Nat
  effective_to : Nat
deriving DecidableEq, Repr

/-- A sector record, as supplied by `insert_sectors`
(src/ingestion.py lines 102-105). -/
structure SectorRec where
  id : String
  name : String
deriving DecidableEq, Repr

/-- `generate_simulated_notams` (src/ingestion.py lines 58-75): two fixed
notices; `now` models `datetime.utcnow()`, `timedelta(hours=2)` is 7200
seconds and `timedelta(hours=1, minutes=30)` is 5400 seconds. -/
def generate_simulated_notams (now : Nat) : List NotamRec :=
  [ { id := "NOTAM001",
      message := "Restricted airspace over Sector S1 due to military activity",
      sector_id := "S1",
      effective_from := now,
      effective_to := now + 7200 },
    { id := "NOTAM002",
      message := "Avoid Sector S2 due to severe weather",
      sector_id := "S2",
      effective_from := now,
      effective_to := now + 5400 } ]

/-- A stored `(:Aircraft)` node (src/ingestion.py lines 120-128). -/
structure AircraftNode where
  icao24 : JVal
  callsign : String
  country : JVal
  latitude : JVal
  longitude : JVal
  altitude : JVal
  velocity : JVal
  heading : JVal
deriving DecidableEq, Repr

/-- A stored `(:WeatherCell)` node (src/ingestion.py lines 152-155). -/
structure WeatherNode where
  station : JVal
  raw : JVal
  observed_at : JVal
deriving DecidableEq, Repr

/-- A stored `(:Sector)` node (src/ingestion.py line 113). -/
structure SectorNode where
  id : String
  name : String
deriving DecidableEq, Repr

/-- A stored `(:NOTAM)` node (src/ingestion.py lines 136-139). -/
structure NotamNode where
  id : String
  message : String
  effective_from : Nat
  effective_to : Nat
deriving DecidableEq, Repr

/-- The graph store: one node list per label plus the `restricts`
relationships.  A relationship is recorded as the pair of the NOTAM identity
and the target Sector node. -/
structure Graph where
  aircraft : List AircraftNode
  weather : List WeatherNode
  sectors : List SectorNode
  notams : List NotamNode
  restricts : List (String × SectorNode)
deriving DecidableEq, Repr

/-- The empty store. -/
def emptyGraph : Graph := ⟨[], [], [], [], []⟩

/-- Cypher `MERGE` on a node pattern followed by `SET`: if any node matches
the merge predicate `p`, `SET` rewrites every matched node via `upd`;
otherwise one new node `fresh` (merge properties plus the `SET`
assignments) is appended. -/
def upsertList {α : Type} (p : α → Bool) (upd : α → α) (fresh : α)
    (ns : List α) : List α :=
  if ns.any p then ns.map (fun a => if p a then upd a else a)
  else ns ++ [fresh]

/-- The node an Aircraft upsert writes: key `icao24` plus the seven `SET`
attributes, all taken from the record (src/ingestion.py lines 120-131). -/
def aircraftNodeOf (ac : AircraftRec) : AircraftNode :=
  { icao24 := ac.icao24, callsign := ac.callsign, country := ac.country,
    latitude := ac.latitude, longitude := ac.longitude,
    altitude := ac.altitude, velocity := ac.velocity, heading := ac.heading }

/-- The `SET` clause of the Aircraft upsert applied to a matched node: the
node keeps its own key and every mutable attribute is overwritten with the
record's value. -/
def setAircraftAttrs (ac : AircraftRec) (a : AircraftNode) : AircraftNode :=
  { aircraftNodeOf ac with icao24 := a.icao24 }

/-- `_create_aircraft_node` (src/ingestion.py lines 118-131):
`MERGE (a:Aircraft {icao24: $icao24})` then `SET` of the seven mutable
attributes. -/
def _create_aircraft_node (g : Graph) (ac : AircraftRec) : Graph :=
  { g with aircraft :=
      upsertList (·.icao24 == ac.icao24) (setAircraftAttrs ac) (aircraftNodeOf ac) g.aircraft }

/-- The station key of a METAR record: `wx.get("station_id", "UNKNOWN")`
(src/ingestion.py line 157). -/
def weatherKey (wx : WeatherRec) : JVal :=
  wx.station_id.getD (.vstr "UNKNOWN")

/-- The node a WeatherCell upsert writes (src/ingestion.py lines 152-159),
with the `dict.get` fallbacks for absent fields. -/
def weatherNodeOf (wx : WeatherRec) : WeatherNode :=
  { station := weatherKey wx,
    raw := wx.raw_text.getD (.vstr "N/A"),
    observed_at := wx.observation_time.getD (.vstr "N/A") }

/-- The `SET` clause of the WeatherCell upsert applied to a matched node. -/
def setWeatherAttrs (wx : WeatherRec) (w : WeatherNode) : WeatherNode :=
  { weatherNodeOf wx with station := w.station }

/-- `_create_weather_node` (src/ingestion.py lines 150-159):
`MERGE (w:WeatherCell {station: $station})` then `SET w.raw, w.observed_at`. -/
def _create_weather_node (g : Graph) (wx : WeatherRec) : Graph :=
  { g with weather :=
      upsertList (·.station == weatherKey wx) (setWeatherAttrs wx) (weatherNodeOf wx) g.weather }

/-- `_create_sector_node` (src/ingestion.py lines 110-114):
`MERGE (:Sector {id: $id, name: $name})` — both properties are part of the
merge predicate and there is no `SET` clause, so a node is created exactly
when no node carries this id AND this name. -/
def _create_sector_node (g : Graph) (s : SectorRec) : Graph :=
  if g.sectors.any (fun n => decide (n.id = s.id ∧ n.name = s.name)) then g
  else { g with sectors := g.sectors ++ [⟨s.id, s.name⟩] }

/-- The node a NOTAM upsert writes: key `id` plus the three `SET`
attributes (src/ingestion.py lines 136-139). -/
def notamNodeOf (nt : NotamRec) : NotamNode :=
  { id := nt.id, message := nt.message,
    effective_from := nt.effective_from, effective_to := nt.effective_to }

/-- The `SET` clause of the NOTAM upsert applied to a matched node. -/
def setNotamAttrs (nt : NotamRec) (n : NotamNode) : NotamNode :=
  { notamNodeOf nt with id := n.id }

/-- `MERGE (n)-[:restricts]->(s)` for each Sector node matched by
`MATCH (s:Sector {id: $sector_id})`: a relationship is added unless it is
already present. -/
def mergeRestricts (ntid : String) (secs : List SectorNode)
    (rs : List (String × SectorNode)) : List (String × SectorNode) :=
  secs.foldl (fun acc s => if (ntid, s) ∈ acc then acc else acc ++ [(ntid, s)]) rs

/-- `_create_notam_node` (src/ingestion.py lines 133-148): merge the NOTAM
node by `id` and overwrite its attributes, then `MATCH` the Sector nodes
whose id equals the record's `sector_id` and merge a `restricts`
relationship to each; matching zero sectors creates nothing. -/
def _create_notam_node (g : Graph) (nt : NotamRec) : Graph :=
  let g1 : Graph :=
    { g with notams :=
        upsertList (·.id == nt.id) (setNotamAttrs nt) (notamNodeOf nt) g.notams }
  { g1 with restricts :=
      mergeRestricts nt.id (g1.sectors.filter (·.id == nt.sector_id)) g1.restricts }

/-- `insert_aircraft` (src/ingestion.py lines 86-89): one upsert per record,
in order. -/
def insert_aircraft (g : Graph) (acs : List AircraftRec) : Graph :=
  acs.foldl _create_aircraft_node g

/-- `insert_weather` (src/ingestion.py lines 91-94). -/
def insert_weather (g : Graph) (wxs : List WeatherRec) : Graph :=
  wxs.foldl _create_weather_node g

/-- `insert_notams` (src/ingestion.py lines 96-99). -/
def insert_notams (g : Graph) (nts : List NotamRec) : Graph :=
  nts.foldl _create_notam_node g

/-- `insert_sectors` (src/ingestion.py lines 101-108): upserts the two fixed
sectors S1/NorthZone and S2/EastZone. -/
def insert_sectors (g : Graph) : Graph :=
  [SectorRec.mk "S1" "NorthZone", SectorRec.mk "S2" "EastZone"].foldl
    _create_sector_node g

/-- The statements of `main` (src/ingestion.py lines 164-180) that can touch
the store or an external source, in program order. -/
inductive PipelineStep where
  | fetchTelemetry
  | fetchWeather
  | generateNotams
  | insertSectors
  | insertAircraft
  | insertWeather
  | insertNotams
  | close
deriving DecidableEq, Repr

/-- The statement order of `main`: `kg.close()` is a plain trailing
statement at line 180 — `main` contains no `try`/`finally` and no `with`
block around the load steps. -/
def mainSteps : List PipelineStep :=
  [.fetchTelemetry, .fetchWeather, .generateNotams, .insertSectors,
   .insertAircraft, .insertWeather, .insertNotams, .close]

/-- Sequential Python execution of a statement list: statements run in
order; a statement that raises aborts everything after it (there is no
handler in `main`).  Returns the statements that were executed, the raising
one included. -/
def runSeq (raises : PipelineStep → Bool) : List PipelineStep → List PipelineStep
  | [] => []
  | s :: rest => if raises s then [s] else s :: runSeq raises rest

/-- The run of `main` in which the steps selected by `raises` raise a
store-level error. -/
def runMain (raises : PipelineStep → Bool) : List PipelineStep :=
  runSeq raises mainSteps

/-- The property names appearing in a Cypher upsert query: those in the
`MERGE` node pattern (the match/create predicate) and those assigned by the
`SET` clause. -/
structure UpsertQuery where
  label : String
  mergeProps : List String
  setProps : List String
deriving DecidableEq, Repr

/-- The query of `_create_aircraft_node` (src/ingestion.py lines 120-128). -/
def aircraftQuery : UpsertQuery :=
  { label := "Aircraft", mergeProps := ["icao24"],
    setProps := ["callsign", "country", "latitude", "longitude", "altitude",
                 "velocity", "heading"] }

/-- The query of `_create_weather_node` (src/ingestion.py lines 152-155). -/
def weatherQuery : UpsertQuery :=
  { label := "WeatherCell", mergeProps := ["station"],
    setProps := ["raw", "observed_at"] }

/-- The query of `_create_sector_node` (src/ingestion.py line 113): both
properties sit in the `MERGE` pattern; there is no `SET` clause. -/
def sectorQuery : UpsertQuery :=
  { label := "Sector", mergeProps := ["id", "name"], setProps := [] }

/-- The query of `_create_notam_node`, node part
(src/ingestion.py lines 136-139). -/
def notamQuery : UpsertQuery :=
  { label := "NOTAM", mergeProps := ["id"],
    setProps := ["message", "effective_from", "effective_to"] }

/-! ## General lemmas about the MERGE/SET list semantics -/

/-- `SET` over the matched nodes rewrites every match to the written node
and leaves the rest; filtering by the merge predicate afterwards yields one
copy of the written node per previous match. -/
theorem filter_map_update {α : Type} (p : α → Bool) (upd : α → α) (fresh : α)
    (hupd : ∀ a, p a = true → upd a = fresh) (hfresh : p fresh = true)
    (ns : List α) :
    ((ns.map fun a => if p a then upd a else a).filter p)
      = List.replicate (ns.filter p).length fresh := by
  induction ns with
  | nil => simp
  | cons a t ih =>
    by_cases hpa : p a = true
    · simp [hpa, hupd a hpa, hfresh, List.replicate_succ, ih]
    · have hpa' : p a = false := by simpa using hpa
      simp [hpa', ih]

/-- One MERGE/SET starting from a store holding at most one node matching
the merge predicate leaves exactly the written node as the matching set. -/
theorem upsertList_filter {α : Type} (p : α → Bool) (upd : α → α) (fresh : α)
    (hupd : ∀ a, p a = true → upd a = fresh) (hfresh : p fresh = true)
    (ns : List α) (h : (ns.filter p).length ≤ 1) :
    (upsertList p upd fresh ns).filter p = [fresh] := by
  by_cases hany : ns.any p = true
  · rw [upsertList, if_pos hany, filter_map_update p upd fresh hupd hfresh ns]
    obtain ⟨a, ha, hpa⟩ := List.any_eq_true.mp hany
    have h1 : 1 ≤ (ns.filter p).length := by
      have hm : a ∈ ns.filter p := List.mem_filter.mpr ⟨ha, hpa⟩
      exact List.length_pos.mpr (List.ne_nil_of_mem hm)
    rw [le_antisymm h h1]
    rfl
  · rw [upsertList, if_neg hany, List.filter_append]
    have hnil : ns.filter p = [] := by
      rw [List.filter_eq_nil_iff]
      intro a ha hpa
      exact hany (List.any_eq_true.mpr ⟨a, ha, hpa⟩)
    simp [hnil, hfresh]

/-- A matched Aircraft node is overwritten to exactly the written node. -/
theorem setAircraftAttrs_matched (ac : AircraftRec) (a : AircraftNode)
    (h : (a.icao24 == ac.icao24) = true) :
    setAircraftAttrs ac a = aircraftNodeOf ac := by
  have h2 : a.icao24 = ac.icao24 := by simpa using h
  simp [setAircraftAttrs, aircraftNodeOf, h2]

/-- A matched WeatherCell node is overwritten to exactly the written node. -/
theorem setWeatherAttrs_matched (wx : WeatherRec) (w : WeatherNode)
    (h : (w.station == weatherKey wx) = true) :
    setWeatherAttrs wx w = weatherNodeOf wx := by
  have h2 : w.station = weatherKey wx := by simpa using h
  simp [setWeatherAttrs, weatherNodeOf, h2]

/-- A matched NOTAM node is overwritten to exactly the written node. -/
theorem setNotamAttrs_matched (nt : NotamRec) (n : NotamNode)
    (h : (n.id == nt.id) = true) :
    setNotamAttrs nt n = notamNodeOf nt := by
  have h2 : n.id = nt.id := by simpa using h
  simp [setNotamAttrs, notamNodeOf, h2]

/-- C1: starting from a store with at most one node per identity key,
upserting the same Aircraft record twice leaves exactly one Aircraft node
with that `icao24`, all mutable attributes equal to the (second) write; the
same holds for the WeatherCell upsert keyed by station and the NOTAM upsert
keyed by id. -/
theorem upsert_twice_single_node (g : Graph) (ac : AircraftRec)
    (wx : WeatherRec) (nt : NotamRec)
    (ha : (g.aircraft.filter (·.icao24 == ac.icao24)).length ≤ 1)
    (hw : (g.weather.filter (·.station == weatherKey wx)).length ≤ 1)
    (hn : (g.notams.filter (·.id == nt.id)).length ≤ 1) :
    ((_create_aircraft_node (_create_aircraft_node g ac) ac).aircraft.filter
        (·.icao24 == ac.icao24) = [aircraftNodeOf ac])
    ∧ ((_create_weather_node (_create_weather_node g wx) wx).weather.filter
        (·.station == weatherKey wx) = [weatherNodeOf wx])
    ∧ ((_create_notam_node (_create_notam_node g nt) nt).notams.filter
        (·.id == nt.id) = [notamNodeOf nt]) := by
  refine ⟨?_, ?_, ?_⟩
  · show (upsertList (·.icao24 == ac.icao24) (setAircraftAttrs ac) (aircraftNodeOf ac)
        (upsertList (·.icao24 == ac.icao24) (setAircraftAttrs ac) (aircraftNodeOf ac)
          g.aircraft)).filter (·.icao24 == ac.icao24) = [aircraftNodeOf ac]
    have hfresh : ((aircraftNodeOf ac).icao24 == ac.icao24) = true := by
      simp [aircraftNodeOf]
    have step1 := upsertList_filter (·.icao24 == ac.icao24) (setAircraftAttrs ac)
      (aircraftNodeOf ac) (setAircraftAttrs_matched ac) hfresh g.aircraft ha
    exact upsertList_filter (·.icao24 == ac.icao24) (setAircraftAttrs ac)
      (aircraftNodeOf ac) (setAircraftAttrs_matched ac) hfresh _ (by rw [step1]; simp)
  · show (upsertList (·.station == weatherKey wx) (setWeatherAttrs wx) (weatherNodeOf wx)
        (upsertList (·.station == weatherKey wx) (setWeatherAttrs wx) (weatherNodeOf wx)
          g.weather)).filter (·.station == weatherKey wx) = [weatherNodeOf wx]
    have hfresh : ((weatherNodeOf wx).station == weatherKey wx) = true := by
      simp [weatherNodeOf]
    have step1 := upsertList_filter (·.station == weatherKey wx) (setWeatherAttrs wx)
      (weatherNodeOf wx) (setWeatherAttrs_matched wx) hfresh g.weather hw
    exact upsertList_filter (·.station == weatherKey wx) (setWeatherAttrs wx)
      (weatherNodeOf wx) (setWeatherAttrs_matched wx) hfresh _ (by rw [step1]; simp)
  · show (upsertList (·.id == nt.id) (setNotamAttrs nt) (notamNodeOf nt)
        (upsertList (·.id == nt.id) (setNotamAttrs nt) (notamNodeOf nt)
          g.notams)).filter (·.id == nt.id) = [notamNodeOf nt]
    have hfresh : ((notamNodeOf nt).id == nt.id) = true := by
      simp [notamNodeOf]
    have step1 := upsertList_filter (·.id == nt.id) (setNotamAttrs nt)
      (notamNodeOf nt) (setNotamAttrs_matched nt) hfresh g.notams hn
    exact upsertList_filter (·.id == nt.id) (setNotamAttrs nt)
      (notamNodeOf nt) (setNotamAttrs_matched nt) hfresh _ (by rw [step1]; simp)

/-- Witness for C1: the idempotence theorem applied to the empty store and
concrete aircraft, weather and NOTAM records. -/
theorem upsert_twice_single_node_witness :
    let ac : AircraftRec :=
      ⟨.vstr "abc123", "UAL1", .vstr "US", .vnum 1, .vnum 2, .vnum 3, .vnum 4, .vnum 5⟩
    let wx : WeatherRec := ⟨some (.vstr "KATL"), some (.vstr "METAR KATL"), none⟩
    let nt : NotamRec := ⟨"NOTAM001", "restriction", "S1", 0, 7200⟩
    ((emptyGraph.aircraft.filter (·.icao24 == ac.icao24)).length ≤ 1
      ∧ (emptyGraph.weather.filter (·.station == weatherKey wx)).length ≤ 1
      ∧ (emptyGraph.notams.filter (·.id == nt.id)).length ≤ 1)
    ∧ (((_create_aircraft_node (_create_aircraft_node emptyGraph ac) ac).aircraft.filter
          (·.icao24 == ac.icao24) = [aircraftNodeOf ac])
        ∧ ((_create_weather_node (_create_weather_node emptyGraph wx) wx).weather.filter
          (·.station == weatherKey wx) = [weatherNodeOf wx])
        ∧ ((_create_notam_node (_create_notam_node emptyGraph nt) nt).notams.filter
          (·.id == nt.id) = [notamNodeOf nt])) := by
  intro ac wx nt
  exact ⟨⟨by decide, by decide, by decide⟩,
    upsert_twice_single_node emptyGraph ac wx nt (by decide) (by decide) (by decide)⟩

/-- C2: `main` closes the store connection only on the no-error path.  If
`insert_aircraft` raises a store-level error, execution never reaches the
plain trailing `kg.close()` statement (there is no `try`/`finally`), so
the connection is not closed; when no step raises, close does run. -/
theorem close_skipped_on_load_error :
    PipelineStep.close ∉ runMain (· == PipelineStep.insertAircraft)
    ∧ PipelineStep.insertAircraft ∈ runMain (· == PipelineStep.insertAircraft)
    ∧ PipelineStep.close ∈ runMain (fun _ => false) := by decide

/-- C3: upserting a NOTAM whose `sector_id` matches no Sector still writes
the NOTAM node with the record's attributes, adds no `restricts`
relationship, and upserting the Sector afterwards never adds a
relationship either. -/
theorem notam_missing_sector_no_relationship (g : Graph) (nt : NotamRec)
    (sec : SectorRec)
    (hs : g.sectors.filter (·.id == nt.sector_id) = [])
    (hn : (g.notams.filter (·.id == nt.id)).length ≤ 1) :
    ((_create_notam_node g nt).notams.filter (·.id == nt.id) = [notamNodeOf nt])
    ∧ (_create_notam_node g nt).restricts = g.restricts
    ∧ (_create_sector_node (_create_notam_node g nt) sec).restricts
        = (_create_notam_node g nt).restricts := by
  refine ⟨?_, ?_, ?_⟩
  · show (upsertList (·.id == nt.id) (setNotamAttrs nt) (notamNodeOf nt)
        g.notams).filter (·.id == nt.id) = [notamNodeOf nt]
    exact upsertList_filter _ _ _ (setNotamAttrs_matched nt)
      (by simp [notamNodeOf]) g.notams hn
  · show mergeRestricts nt.id (g.sectors.filter (·.id == nt.sector_id))
        g.restricts = g.restricts
    rw [hs]
    rfl
  · simp only [_create_sector_node]
    split <;> rfl

/-- Witness for C3: NOTAM001 references Sector S1 in the empty store; no
relationship is created, and creating S1 afterwards adds none. -/
theorem notam_missing_sector_no_relationship_witness :
    let nt : NotamRec := ⟨"NOTAM001", "restriction", "S1", 0, 7200⟩
    let sec : SectorRec := ⟨"S1", "NorthZone"⟩
    (emptyGraph.sectors.filter (·.id == nt.sector_id) = []
      ∧ (emptyGraph.notams.filter (·.id == nt.id)).length ≤ 1)
    ∧ (((_create_notam_node emptyGraph nt).notams.filter (·.id == nt.id)
          = [notamNodeOf nt])
        ∧ (_create_notam_node emptyGraph nt).restricts = emptyGraph.restricts
        ∧ (_create_sector_node (_create_notam_node emptyGraph nt) sec).restricts
            = (_create_notam_node emptyGraph nt).restricts) := by
  intro nt sec
  exact ⟨⟨by decide, by decide⟩,
    notam_missing_sector_no_relationship emptyGraph nt sec (by decide) (by decide)⟩

/-- C4: for each entity label, the identity key appears in the MERGE
predicate of its upsert query and never in its SET clause. -/
theorem identity_key_not_in_set_clause :
    ("icao24" ∈ aircraftQuery.mergeProps ∧ "icao24" ∉ aircraftQuery.setProps)
    ∧ ("station" ∈ weatherQuery.mergeProps ∧ "station" ∉ weatherQuery.setProps)
    ∧ ("id" ∈ sectorQuery.mergeProps ∧ "id" ∉ sectorQuery.setProps)
    ∧ ("id" ∈ notamQuery.mergeProps ∧ "id" ∉ notamQuery.setProps) := by decide

/-- C5 counterexample: the Aircraft upsert itself performs no trimming.
Upserting the claim's record (callsign field " UAL1 ") into the empty store
stores the callsign verbatim as " UAL1 ", which differs from "UAL1". -/
theorem upsert_callsign_not_trimmed :
    (_create_aircraft_node emptyGraph
        ⟨.vstr "A1", " UAL1 ", .vstr "US", .vnum (-90), .vnum 35, .vnum 250,
          .vnum 90, .vnum 10000⟩).aircraft
      = [⟨.vstr "A1", " UAL1 ", .vstr "US", .vnum 35, .vnum (-90), .vnum 10000,
          .vnum 250, .vnum 90⟩]
    ∧ (" UAL1 " : String) ≠ "UAL1" := by decide

/-- C5 amended: trimming happens in the telemetry adapter, not in the
upsert.  Feeding a state vector carrying " UAL1 " at index 1 and the
claim's values at the other used indices through `get_opensky_telemetry`
and then upserting the resulting record stores callsign "UAL1" and every
other attribute verbatim. -/
theorem adapter_trims_callsign_end_to_end :
    (insert_aircraft emptyGraph
        (get_opensky_telemetry (.response 200 (some
          [[.vstr "A1", .vstr " UAL1 ", .vstr "US", .vnull, .vnull,
            .vnum (-90), .vnum 35, .vnull, .vnull, .vnum 250, .vnum 90,
            .vnull, .vnull, .vnum 10000]])))).aircraft
      = [⟨.vstr "A1", "UAL1", .vstr "US", .vnum 35, .vnum (-90), .vnum 10000,
          .vnum 250, .vnum 90⟩] := by
  rfl

/-- Inverting a successful mapping loop: the output has one record per
retained state vector, each obtained from its vector by the fixed-index
mapping. -/
theorem mapStates_eq_some {l : List (List JVal)} {rs : List AircraftRec}
    (h : mapStates l = some rs) :
    rs.length = l.length
    ∧ ∀ (i : Nat) (r : AircraftRec), rs[i]? = some r →
        ∃ item, l[i]? = some item ∧ mapStateVector item = some r := by
  induction l generalizing rs with
  | nil =>
    simp only [mapStates, Option.some.injEq] at h
    subst h
    exact ⟨rfl, by intro i r hr; simp at hr⟩
  | cons a t ih =>
    simp only [mapStates] at h
    cases hma : mapStateVector a with
    | none => rw [hma] at h; simp at h
    | some r0 =>
      cases hmt : mapStates t with
      | none => rw [hma, hmt] at h; simp at h
      | some ts =>
        rw [hma, hmt] at h
        simp only [Option.some.injEq] at h
        subst h
        obtain ⟨hlen, hidx⟩ := ih hmt
        refine ⟨by simp [hlen], ?_⟩
        intro i r hr
        cases i with
        | zero =>
          simp only [List.getElem?_cons_zero, Option.some.injEq] at hr
          subst hr
          exact ⟨a, by simp, hma⟩
        | succ j =>
          simp only [List.getElem?_cons_succ] at hr
          obtain ⟨item, hit, hmi⟩ := hidx j r hr
          exact ⟨item, by rw [List.getElem?_cons_succ]; exact hit, hmi⟩

/-- A failing vector anywhere in the batch poisons the whole mapping loop. -/
theorem mapStates_eq_none {l : List (List JVal)} {i : Nat} {item : List JVal}
    (hi : l[i]? = some item) (hbad : mapStateVector item = none) :
    mapStates l = none := by
  induction l generalizing i with
  | nil => simp at hi
  | cons a t ih =>
    cases i with
    | zero =>
      simp only [List.getElem?_cons_zero, Option.some.injEq] at hi
      subst hi
      simp [mapStates, hbad]
    | succ j =>
      simp only [List.getElem?_cons_succ] at hi
      have ht := ih hi
      rw [mapStates, ht]
      cases mapStateVector a <;> rfl

/-- C6: on a 200 response the adapter returns at most `limit` records and
every returned record is the fixed-index image of the state vector at the
same position; a non-200 status or a transport error yields the empty
sequence. -/
theorem telemetry_fixed_index_mapping (states : List (List JVal))
    (st : Option (List (List JVal))) (limit status : Nat)
    (hstatus : status ≠ 200) :
    (get_opensky_telemetry (.response 200 (some states)) limit).length ≤ limit
    ∧ (∀ (i : Nat) (r : AircraftRec),
        (get_opensky_telemetry (.response 200 (some states)) limit)[i]? = some r →
        ∃ item, states[i]? = some item ∧ mapStateVector item = some r)
    ∧ get_opensky_telemetry (.response status st) limit = []
    ∧ get_opensky_telemetry .transportError limit = [] := by
  have hbody : get_opensky_telemetry (.response 200 (some states)) limit
      = match mapStates (states.take limit) with
        | some recs => recs
        | none => [] := by
    simp [get_opensky_telemetry]
  refine ⟨?_, ?_, ?_, rfl⟩
  · rw [hbody]
    cases hms : mapStates (states.take limit) with
    | none => simp
    | some recs =>
      have hlen := (mapStates_eq_some hms).1
      simp only [hlen, List.length_take]
      exact min_le_left _ _
  · intro i r hr
    rw [hbody] at hr
    cases hms : mapStates (states.take limit) with
    | none => rw [hms] at hr; simp at hr
    | some recs =>
      rw [hms] at hr
      obtain ⟨item, hit, hmi⟩ := (mapStates_eq_some hms).2 i r hr
      refine ⟨item, ?_, hmi⟩
      have hilt : i < limit := by
        by_contra hge
        push_neg at hge
        have : (states.take limit).length ≤ i :=
          le_trans (by simp [List.length_take_le]) hge
        rw [List.getElem?_eq_none this] at hit
        exact Option.noConfusion hit
      rw [← List.getElem?_take_of_lt hilt]
      exact hit
  · simp [get_opensky_telemetry, hstatus]

/-- Witness for C6: a concrete 200 response with one well-formed state
vector, a 404 response and a transport error. -/
theorem telemetry_fixed_index_mapping_witness :
    let states : List (List JVal) :=
      [[.vstr "abc", .vstr "CS1", .vstr "US", .vnull, .vnull, .vnum 1,
        .vnum 2, .vnull, .vnull, .vnum 3, .vnum 4, .vnull, .vnull, .vnum 5]]
    (404 : Nat) ≠ 200
    ∧ ((get_opensky_telemetry (.response 200 (some states)) 5).length ≤ 5
      ∧ (∀ (i : Nat) (r : AircraftRec),
          (get_opensky_telemetry (.response 200 (some states)) 5)[i]? = some r →
          ∃ item, states[i]? = some item ∧ mapStateVector item = some r)
      ∧ get_opensky_telemetry (.response 404 none) 5 = []
      ∧ get_opensky_telemetry .transportError 5 = []) := by
  intro states
  exact ⟨by decide, telemetry_fixed_index_mapping states none 5 404 (by decide)⟩

/-- C10: if any state vector among the first `limit` entries of a 200
response fails the fixed-index mapping, the whole call returns the empty
sequence — well-formed records of the same batch are discarded too. -/
theorem malformed_vector_discards_batch (states : List (List JVal))
    (limit : Nat)
    (h : ∃ i : Nat, i < limit ∧ ∃ item, states[i]? = some item
          ∧ mapStateVector item = none) :
    get_opensky_telemetry (.response 200 (some states)) limit = [] := by
  obtain ⟨i, hil, item, hit, hbad⟩ := h
  have htake : (states.take limit)[i]? = some item := by
    rw [List.getElem?_take_of_lt hil]
    exact hit
  have hnone := mapStates_eq_none htake hbad
  simp [get_opensky_telemetry, hnone]

/-- Witness for C10: a batch holding one well-formed vector followed by an
empty (too short) vector; the call returns nothing at all. -/
theorem malformed_vector_discards_batch_witness :
    let states : List (List JVal) :=
      [[.vstr "abc", .vstr "CS1", .vstr "US", .vnull, .vnull, .vnum 1,
        .vnum 2, .vnull, .vnull, .vnum 3, .vnum 4, .vnull, .vnull, .vnum 5],
       []]
    (∃ i : Nat, i < 5 ∧ ∃ item, states[i]? = some item ∧ mapStateVector item = none)
    ∧ get_opensky_telemetry (.response 200 (some states)) 5 = [] := by
  intro states
  refine ⟨⟨1, by decide, [], rfl, rfl⟩, ?_⟩
  exact malformed_vector_discards_batch states 5 ⟨1, by decide, [], rfl, rfl⟩

/-- C7: running the sector reference load twice on the empty store leaves
exactly the two Sector nodes S1/NorthZone and S2/EastZone, and the second
call changes nothing at all. -/
theorem insert_sectors_twice_two_nodes :
    (insert_sectors (insert_sectors emptyGraph)).sectors
      = [⟨"S1", "NorthZone"⟩, ⟨"S2", "EastZone"⟩]
    ∧ insert_sectors (insert_sectors emptyGraph) = insert_sectors emptyGraph := by
  decide

/-- C8: for any current instant, the generator returns exactly two notices:
NOTAM001 restricting S1 for two hours and NOTAM002 restricting S2 for one
and a half hours, both effective from that instant, with fixed messages. -/
theorem simulated_notams_shape (now : Nat) :
    ∃ n1 n2, generate_simulated_notams now = [n1, n2]
      ∧ n1.id = "NOTAM001" ∧ n1.sector_id = "S1"
      ∧ n1.message = "Restricted airspace over Sector S1 due to military activity"
      ∧ n1.effective_from = now ∧ n1.effective_to = n1.effective_from + 7200
      ∧ n2.id = "NOTAM002" ∧ n2.sector_id = "S2"
      ∧ n2.message = "Avoid Sector S2 due to severe weather"
      ∧ n2.effective_from = now ∧ n2.effective_to = n2.effective_from + 5400 := by
  exact ⟨_, _, rfl, rfl, rfl, rfl, rfl, rfl, rfl, rfl, rfl, rfl, rfl⟩

/-- C9: the Sector merge predicate contains the name as well as the id, so
upserting an existing id with a different name duplicates the id; the two
fixed id/name pairs supplied by `insert_sectors` are what keeps Sector ids
unique. -/
theorem sector_merge_on_id_and_name :
    "name" ∈ sectorQuery.mergeProps
    ∧ ((_create_sector_node (_create_sector_node emptyGraph ⟨"S1", "NorthZone"⟩)
          ⟨"S1", "OtherName"⟩).sectors.filter (·.id == "S1")).length = 2
    ∧ ((insert_sectors (insert_sectors emptyGraph)).sectors.filter
          (·.id == "S1")).length = 1
    ∧ ((insert_sectors (insert_sectors emptyGraph)).sectors.filter
          (·.id == "S2")).length = 1 := by
  decide

end AirTraffic
